import Mathlib

/-!
Shallow embedding of the wallet-custody core of the Chill-Fill bot:
the `WalletEnhancedService` (per-user wallet generation, passphrase-derived
encryption, storage and controlled disclosure) and the `RateLimiterService`
(sliding window plus cooldown throttle).

Modelling conventions:
* Machine randomness (`crypto.randomBytes`) is modelled by an entropy counter
  threaded through the state: the n-th draw is the value `Bytes.random n`,
  so successive draws are distinct.
* The cryptographic primitives are idealized: `crypto.scrypt` and
  `crypto.createHash("sha256")` are injective constructors of the `Bytes`
  type (an ideal, collision-free KDF/hash), and AES-256-GCM with associated
  data is modelled by a `SealedBlob` record that remembers the key, the
  associated data and the plaintext; opening succeeds exactly when the key
  and the associated data presented at decryption match the ones used at
  encryption, which is the ideal behaviour of the authentication tag.
* `Date.now()` / `new Date()` are explicit `now : Nat` parameters.
* JavaScript `Map`s are total functions into `Option`, and the mutating
  methods become state-passing functions.
-/

namespace ChillFill

/-- Idealized byte-string values produced by the Node crypto primitives. -/
inductive Bytes where
  /-- The n-th draw of `crypto.randomBytes` from the entropy source. -/
  | random (n : Nat)
  /-- Embedding of `crypto.createHash("sha256").update(s).digest()`. -/
  | sha256 (s : String)
  /-- Embedding of `crypto.scrypt(secret, salt, keylen)` (idealized, collision-free). -/
  | scrypt (secret : String) (salt : Bytes) (keylen : Nat)
deriving DecidableEq, Repr

/-- The failure kinds of the wallet vault, as they occur in the service:
`notFound` is the early `null` return when no record exists,
`invalidPassphrase` is the `throw new Error("Invalid passphrase")` in
`deriveKey`, and `decryptionFailure` is the authentication-tag failure
raised by `decipher.final`. -/
inductive WalletError where
  | notFound
  | invalidPassphrase
  | decryptionFailure
deriving DecidableEq, Repr

/-- The scrypt parameter record (`kdfParams` field of the service). -/
structure KdfParams where
  algorithm : String
  N : Nat
  r : Nat
  p : Nat
  keylen : Nat
deriving DecidableEq, Repr

/-- The module-wide constant `this.kdfParams` of `WalletEnhancedService`. -/
def liveKdfParams : KdfParams :=
  { algorithm := "scrypt", N := 16384, r := 8, p := 1, keylen := 32 }

/-- An AES-256-GCM ciphertext (the hex blob `iv ++ authTag ++ encrypted`
produced by `encryptPrivateKey`), idealized: it remembers the key it was
sealed under, the associated data (`cipher.setAAD`) bound into the tag,
and the plaintext. -/
structure SealedBlob where
  iv : Bytes
  key : Bytes
  aad : Bytes
  plaintext : String
deriving DecidableEq, Repr

/-- Embedding of `GeneratedWallet` interface. -/
structure GeneratedWallet where
  address : String
  privateKey : String
  mnemonic : String
  encryptedPrivateKey : Option SealedBlob := none
deriving DecidableEq, Repr

/-- Embedding of `StoredWallet` interface (the WalletRecord). -/
structure StoredWallet where
  address : String
  encryptedPrivateKey : SealedBlob
  encryptedMnemonic : SealedBlob
  salt : Bytes
  kdfParams : KdfParams
  createdAt : Nat
  userId : Nat
  hasPassphrase : Bool
deriving DecidableEq, Repr

/-- Embedding of `UserPassphrase` interface (the PassphraseRecord). -/
structure UserPassphrase where
  userId : Nat
  hashedPassphrase : Bytes
  salt : Bytes
  createdAt : Nat
deriving DecidableEq, Repr

/-- The mutable state of a `WalletEnhancedService` instance: the two
`Map`s plus the entropy-source position. -/
structure WState where
  wallets : Nat → Option StoredWallet
  passphrases : Nat → Option UserPassphrase
  ctr : Nat

/-- A freshly constructed `WalletEnhancedService` (both maps empty). -/
def walletState0 : WState :=
  { wallets := fun _ => none, passphrases := fun _ => none, ctr := 0 }

/-- Embedding of `setUserPassphrase`: fresh random salt, scrypt hash with output length
64, store (overwriting any prior record). -/
def setUserPassphrase (s : WState) (userId : Nat) (passphrase : String)
    (now : Nat) : WState :=
  let salt := Bytes.random s.ctr
  { s with
    passphrases := fun u =>
      if u = userId then
        some { userId := userId
               hashedPassphrase := Bytes.scrypt passphrase salt 64
               salt := salt
               createdAt := now }
      else s.passphrases u
    ctr := s.ctr + 1 }

/-- Embedding of `verifyPassphrase`: false when no record; otherwise re-derive with the
stored salt and compare (`crypto.timingSafeEqual`, i.e. equality of the two
64-byte buffers). -/
def verifyPassphrase (s : WState) (userId : Nat) (passphrase : String) : Bool :=
  match s.passphrases userId with
  | none => false
  | some stored =>
      decide (Bytes.scrypt passphrase stored.salt 64 = stored.hashedPassphrase)

/-- The fallback encryption key of `deriveKey`'s else-branch:
`scrypt("user_" + userId, sha256("user_" + userId + "_salt"), keylen)`. -/
def fallbackKey (userId : Nat) : Bytes :=
  Bytes.scrypt ("user_" ++ toString userId)
    (Bytes.sha256 ("user_" ++ toString userId ++ "_salt"))
    liveKdfParams.keylen

/-- Embedding of `deriveKey`: when a PassphraseRecord exists and a (truthy, i.e.
non-empty) passphrase argument was supplied, verify it (failure raises
`Invalid passphrase`) and derive from it with the record's salt; in every
other case fall back to the deterministic user-id key. -/
def deriveKey (s : WState) (userId : Nat) (passphrase : Option String) :
    Except WalletError Bytes :=
  match passphrase, s.passphrases userId with
  | some pp, some userPassphrase =>
      if pp = "" then Except.ok (fallbackKey userId)
      else if verifyPassphrase s userId pp then
        Except.ok (Bytes.scrypt pp userPassphrase.salt liveKdfParams.keylen)
      else Except.error WalletError.invalidPassphrase
  | _, _ => Except.ok (fallbackKey userId)

/-- Embedding of `encryptPrivateKey`: derive the key, draw a fresh 16-byte salt and iv,
seal the plaintext with the salt as associated data, and return the blob
together with the salt. Raises whatever `deriveKey` raises. -/
def encryptPrivateKey (s : WState) (plaintext : String) (userId : Nat)
    (passphrase : Option String) :
    Except WalletError ((SealedBlob × Bytes) × WState) :=
  match deriveKey s userId passphrase with
  | Except.error e => Except.error e
  | Except.ok key =>
      let salt := Bytes.random s.ctr
      let iv := Bytes.random (s.ctr + 1)
      Except.ok
        (({ iv := iv, key := key, aad := salt, plaintext := plaintext }, salt),
         { s with ctr := s.ctr + 2 })

/-- Embedding of `decryptPrivateKey`: derive the key, then open the blob presenting
`salt` as associated data; the authentication tag verifies exactly when
both the key and the associated data match the sealing call. -/
def decryptPrivateKey (blob : SealedBlob) (salt : Bytes) (s : WState)
    (userId : Nat) (passphrase : Option String) : Except WalletError String :=
  match deriveKey s userId passphrase with
  | Except.error e => Except.error e
  | Except.ok key =>
      if blob.key = key ∧ blob.aad = salt then Except.ok blob.plaintext
      else Except.error WalletError.decryptionFailure

/-- JavaScript truthiness of the optional passphrase argument
(`!!passphrase`): false for `undefined` and for the empty string. -/
def truthy : Option String → Bool
  | none => false
  | some pp => pp ≠ ""

/-- Embedding of `createWalletForUser`: generate a wallet (the fresh key material is the
argument `w`), encrypt the private key and then the mnemonic (each call
draws its own fresh salt and iv; only the private-key call's salt is kept),
store the record under the user id (no existence check — an existing record
is overwritten), and return the plaintext wallet with the encrypted blob
attached. `hasPassphrase` records whether the `passphrase` argument was
truthy. -/
def createWalletForUser (s : WState) (userId : Nat)
    (passphrase : Option String) (w : GeneratedWallet) (now : Nat) :
    Except WalletError (GeneratedWallet × WState) :=
  match encryptPrivateKey s w.privateKey userId passphrase with
  | Except.error e => Except.error e
  | Except.ok ((pkBlob, pkSalt), s1) =>
      match encryptPrivateKey s1 w.mnemonic userId passphrase with
      | Except.error e => Except.error e
      | Except.ok ((mnBlob, _mnSalt), s2) =>
          let stored : StoredWallet :=
            { address := w.address
              encryptedPrivateKey := pkBlob
              encryptedMnemonic := mnBlob
              salt := pkSalt
              kdfParams := liveKdfParams
              createdAt := now
              userId := userId
              hasPassphrase := truthy passphrase }
          Except.ok
            ({ w with encryptedPrivateKey := some pkBlob },
             { s2 with wallets := fun u =>
                 if u = userId then some stored else s2.wallets u })

/-- Embedding of `getPrivateKey`, before the try/catch collapses failures: `notFound`
when no record, otherwise whatever `decryptPrivateKey` produces. -/
def getPrivateKeyE (s : WState) (userId : Nat) (passphrase : Option String) :
    Except WalletError String :=
  match s.wallets userId with
  | none => Except.error WalletError.notFound
  | some w => decryptPrivateKey w.encryptedPrivateKey w.salt s userId passphrase

/-- The public `getPrivateKey`: every failure is caught and becomes `null`. -/
def getPrivateKey (s : WState) (userId : Nat) (passphrase : Option String) :
    Option String :=
  (getPrivateKeyE s userId passphrase).toOption

/-- Embedding of `getMnemonic`, before the try/catch: opens the mnemonic blob with the
stored (private-key) salt as associated data. -/
def getMnemonicE (s : WState) (userId : Nat) (passphrase : Option String) :
    Except WalletError String :=
  match s.wallets userId with
  | none => Except.error WalletError.notFound
  | some w => decryptPrivateKey w.encryptedMnemonic w.salt s userId passphrase

/-- The public `getMnemonic`: every failure is caught and becomes `null`. -/
def getMnemonic (s : WState) (userId : Nat) (passphrase : Option String) :
    Option String :=
  (getMnemonicE s userId passphrase).toOption

/-! ## RateLimiterService -/

/-- Embedding of `RateLimit` interface: one entry per (user, action). -/
structure RateLimit where
  userId : Nat
  action : String
  count : Nat
  windowStart : Nat
  lastAttempt : Nat
deriving DecidableEq, Repr

/-- Embedding of `RateLimitConfig` interface; `cooldownMs` is optional. -/
structure RateLimitConfig where
  windowMs : Nat
  maxAttempts : Nat
  cooldownMs : Option Nat := none
deriving DecidableEq, Repr

/-- The object returned by `canPerformAction`, with the optional fields of
the TypeScript literal. A denial with reason RateLimited carries a
`resetTime` and no `cooldownUntil`; a denial with reason Cooldown carries a
`cooldownUntil`. -/
structure CheckResult where
  allowed : Bool
  remainingAttempts : Option Nat := none
  resetTime : Option Nat := none
  cooldownUntil : Option Nat := none
  message : Option String := none
deriving DecidableEq, Repr

/-- The mutable state of a `RateLimiterService` instance: the `attempts`
map keyed by `userId:action` (modelled as the pair) and the `configs`
record (mutable through `setRateLimit`). -/
structure RLState where
  attempts : Nat × String → Option RateLimit
  configs : String → Option RateLimitConfig

/-- The default `configs` table of `RateLimiterService`. -/
def defaultConfigs : String → Option RateLimitConfig := fun action =>
  if action = "supply" then
    some { windowMs := 60000, maxAttempts := 3, cooldownMs := some 30000 }
  else if action = "borrow" then
    some { windowMs := 60000, maxAttempts := 3, cooldownMs := some 30000 }
  else if action = "repay" then
    some { windowMs := 60000, maxAttempts := 5, cooldownMs := some 15000 }
  else if action = "redeem" then
    some { windowMs := 60000, maxAttempts := 5, cooldownMs := some 15000 }
  else if action = "claim" then
    some { windowMs := 300000, maxAttempts := 2, cooldownMs := some 60000 }
  else if action = "approve" then
    some { windowMs := 180000, maxAttempts := 3, cooldownMs := some 30000 }
  else if action = "export_private_key" then
    some { windowMs := 300000, maxAttempts := 2, cooldownMs := some 120000 }
  else if action = "export_mnemonic" then
    some { windowMs := 300000, maxAttempts := 2, cooldownMs := some 120000 }
  else if action = "position" then
    some { windowMs := 60000, maxAttempts := 10 }
  else if action = "markets" then
    some { windowMs := 60000, maxAttempts := 15 }
  else if action = "balance" then
    some { windowMs := 60000, maxAttempts := 10 }
  else none

/-- A freshly constructed `RateLimiterService`. -/
def rlState0 : RLState :=
  { attempts := fun _ => none, configs := defaultConfigs }

/-- Embedding of `Math.ceil(x / 1000)` for a non-negative number of milliseconds. -/
def ceilSeconds (x : Nat) : Nat := (x + 999) / 1000

/-- Embedding of `canPerformAction`: a read of the state. It is presented as returning
the state alongside the verdict so that its frame behaviour is a stated
property: the method body contains no mutation, so every branch returns
the state it was given. `now` is `Date.now()`. -/
def canPerformAction (s : RLState) (userId : Nat) (action : String)
    (now : Nat) : CheckResult × RLState :=
  match s.configs action with
  | none => ({ allowed := true }, s)
  | some config =>
      match s.attempts (userId, action) with
      | none =>
          ({ allowed := true
             remainingAttempts := some (config.maxAttempts - 1)
             resetTime := some (now + config.windowMs) }, s)
      | some limit =>
          let inCooldown : Bool := match config.cooldownMs with
            | none => false
            | some c => decide (c ≠ 0) && decide (limit.lastAttempt + c > now)
          if inCooldown then
            let cooldownUntil := limit.lastAttempt + config.cooldownMs.getD 0
            ({ allowed := false
               cooldownUntil := some cooldownUntil
               message := some ("Action blocked. Cooldown active for "
                 ++ toString (ceilSeconds (cooldownUntil - now))
                 ++ " more seconds.") }, s)
          else if now - limit.windowStart > config.windowMs then
            ({ allowed := true
               remainingAttempts := some (config.maxAttempts - 1)
               resetTime := some (now + config.windowMs) }, s)
          else if limit.count ≥ config.maxAttempts then
            let resetTime := limit.windowStart + config.windowMs
            ({ allowed := false
               resetTime := some resetTime
               message := some ("Rate limit exceeded. Try again in "
                 ++ toString (ceilSeconds (resetTime - now))
                 ++ " seconds.") }, s)
          else
            ({ allowed := true
               remainingAttempts := some (config.maxAttempts - limit.count - 1)
               resetTime := some (limit.windowStart + config.windowMs) }, s)

/-- Embedding of `recordAttempt`: no-op for unconfigured actions; otherwise start a new
window (count 1) when there is no entry or the window has expired, else
increment the count and refresh `lastAttempt`. -/
def recordAttempt (s : RLState) (userId : Nat) (action : String)
    (now : Nat) : RLState :=
  match s.configs action with
  | none => s
  | some config =>
      let fresh : RateLimit :=
        { userId := userId, action := action, count := 1
          windowStart := now, lastAttempt := now }
      match s.attempts (userId, action) with
      | none =>
          { s with attempts := fun k =>
              if k = (userId, action) then some fresh else s.attempts k }
      | some existing =>
          if now - existing.windowStart > config.windowMs then
            { s with attempts := fun k =>
                if k = (userId, action) then some fresh else s.attempts k }
          else
            { s with attempts := fun k =>
                if k = (userId, action) then
                  some { existing with count := existing.count + 1
                                       lastAttempt := now }
                else s.attempts k }

/-- Embedding of `setRateLimit` (admin): replace or add an action's configuration. -/
def setRateLimit (s : RLState) (action : String) (config : RateLimitConfig) :
    RLState :=
  { s with configs := fun a => if a = action then some config else s.configs a }

/-- The sealed private-key blob produced by a successful
`createWalletForUser` call starting at entropy position `s.ctr`. -/
def pkBlobOf (s : WState) (key : Bytes) (w : GeneratedWallet) : SealedBlob :=
  { iv := Bytes.random (s.ctr + 1), key := key, aad := Bytes.random s.ctr
    plaintext := w.privateKey }

/-- The `StoredWallet` record written by a successful `createWalletForUser`
call: note the mnemonic blob's associated data is the second fresh salt
`Bytes.random (s.ctr + 2)` while the record's `salt` field keeps only the
first one. -/
def storedOf (s : WState) (userId : Nat) (passphrase : Option String)
    (w : GeneratedWallet) (now : Nat) (key : Bytes) : StoredWallet :=
  { address := w.address
    encryptedPrivateKey := pkBlobOf s key w
    encryptedMnemonic :=
      { iv := Bytes.random (s.ctr + 3), key := key
        aad := Bytes.random (s.ctr + 2), plaintext := w.mnemonic }
    salt := Bytes.random s.ctr
    kdfParams := liveKdfParams
    createdAt := now
    userId := userId
    hasPassphrase := truthy passphrase }

/-- The service state after a successful `createWalletForUser` call. -/
def createdState (s : WState) (userId : Nat) (passphrase : Option String)
    (w : GeneratedWallet) (now : Nat) (key : Bytes) : WState :=
  { wallets := fun u =>
      if u = userId then some (storedOf s userId passphrase w now key)
      else s.wallets u
    passphrases := s.passphrases
    ctr := s.ctr + 2 + 2 }

def wEx1 : GeneratedWallet := { address := "A1", privateKey := "PK1", mnemonic := "MN1" }

def wEx2 : GeneratedWallet := { address := "A2", privateKey := "PK2", mnemonic := "MN2" }

def sPex : WState := setUserPassphrase walletState0 1 "hunter2" 5

def s1ex : WState := createdState walletState0 1 none wEx1 0 (fallbackKey 1)

def rlTraceState : RLState :=
  setRateLimit rlState0 "transfer"
    { windowMs := 60000, maxAttempts := 3, cooldownMs := none }

/-! ## Helper lemmas -/

theorem deriveKey_arg_none (s : WState) (userId : Nat) :
    deriveKey s userId none = Except.ok (fallbackKey userId) := rfl

theorem deriveKey_no_record (s : WState) (userId : Nat) (pp : String)
    (h : s.passphrases userId = none) :
    deriveKey s userId (some pp) = Except.ok (fallbackKey userId) := by
  unfold deriveKey
  rw [h]

theorem deriveKey_record (s : WState) (userId : Nat) (p : String)
    (stored : UserPassphrase)
    (hrec : s.passphrases userId = some stored)
    (hhash : stored.hashedPassphrase = Bytes.scrypt p stored.salt 64)
    (hp : p ≠ "") :
    deriveKey s userId (some p) =
      Except.ok (Bytes.scrypt p stored.salt liveKdfParams.keylen) := by
  unfold deriveKey verifyPassphrase
  rw [hrec]
  simp [hp, hhash]

theorem deriveKey_record_wrong (s : WState) (userId : Nat) (p q : String)
    (stored : UserPassphrase)
    (hrec : s.passphrases userId = some stored)
    (hhash : stored.hashedPassphrase = Bytes.scrypt p stored.salt 64)
    (hq : q ≠ p) (hq0 : q ≠ "") :
    deriveKey s userId (some q) = Except.error WalletError.invalidPassphrase := by
  unfold deriveKey verifyPassphrase
  rw [hrec]
  simp [hq0, hhash, Bytes.scrypt.injEq, hq]

theorem createWalletForUser_ok (s : WState) (userId : Nat)
    (passphrase : Option String) (w : GeneratedWallet) (now : Nat) (key : Bytes)
    (hd : deriveKey s userId passphrase = Except.ok key) :
    createWalletForUser s userId passphrase w now =
      Except.ok ({ w with encryptedPrivateKey := some (pkBlobOf s key w) },
                 createdState s userId passphrase w now key) := by
  have hd2 : deriveKey { s with ctr := s.ctr + 2 } userId passphrase
      = Except.ok key := hd
  unfold createWalletForUser encryptPrivateKey
  rw [hd]
  dsimp only
  rw [hd2]
  rfl

theorem deriveKey_created (s : WState) (userId : Nat) (pp : Option String)
    (w : GeneratedWallet) (now : Nat) (key : Bytes) (userId2 : Nat)
    (ppGet : Option String) :
    deriveKey (createdState s userId pp w now key) userId2 ppGet
      = deriveKey s userId2 ppGet := rfl

theorem getPrivateKeyE_created (s : WState) (userId : Nat) (pp ppGet : Option String)
    (w : GeneratedWallet) (now : Nat) (key : Bytes) :
    getPrivateKeyE (createdState s userId pp w now key) userId ppGet =
      match deriveKey s userId ppGet with
      | Except.error e => Except.error e
      | Except.ok k2 =>
          if key = k2 then Except.ok w.privateKey
          else Except.error WalletError.decryptionFailure := by
  unfold getPrivateKeyE
  rw [show (createdState s userId pp w now key).wallets userId
      = some (storedOf s userId pp w now key) from by simp [createdState]]
  unfold decryptPrivateKey
  rw [deriveKey_created]
  rcases deriveKey s userId ppGet with e | k2
  · rfl
  · simp [storedOf, pkBlobOf]

theorem getMnemonicE_created (s : WState) (userId : Nat) (pp ppGet : Option String)
    (w : GeneratedWallet) (now : Nat) (key : Bytes) :
    getMnemonicE (createdState s userId pp w now key) userId ppGet =
      match deriveKey s userId ppGet with
      | Except.error e => Except.error e
      | Except.ok _ => Except.error WalletError.decryptionFailure := by
  unfold getMnemonicE
  rw [show (createdState s userId pp w now key).wallets userId
      = some (storedOf s userId pp w now key) from by simp [createdState]]
  unfold decryptPrivateKey
  rw [deriveKey_created]
  rcases deriveKey s userId ppGet with e | k2
  · rfl
  · simp [storedOf, pkBlobOf]

theorem recordAttempt_configs (s : RLState) (u : Nat) (a : String) (t : Nat) :
    (recordAttempt s u a t).configs = s.configs := by
  unfold recordAttempt
  rcases s.configs a with _ | cfg
  · rfl
  · dsimp only
    rcases s.attempts (u, a) with _ | ex
    · rfl
    · dsimp only
      split <;> rfl

theorem recordAttempt_fresh (s : RLState) (u : Nat) (a : String) (t : Nat)
    (cfg : RateLimitConfig) (hc : s.configs a = some cfg)
    (he : s.attempts (u, a) = none) :
    (recordAttempt s u a t).attempts (u, a) =
      some { userId := u, action := a, count := 1, windowStart := t
             lastAttempt := t } := by
  unfold recordAttempt
  rw [hc]
  dsimp only
  rw [he]
  simp

theorem recordAttempt_incr (s : RLState) (u : Nat) (a : String) (t : Nat)
    (cfg : RateLimitConfig) (limit : RateLimit) (hc : s.configs a = some cfg)
    (he : s.attempts (u, a) = some limit)
    (hw : ¬ t - limit.windowStart > cfg.windowMs) :
    (recordAttempt s u a t).attempts (u, a) =
      some { limit with count := limit.count + 1, lastAttempt := t } := by
  unfold recordAttempt
  rw [hc]
  dsimp only
  rw [he]
  simp [hw]

theorem recordAttempt_lastAttempt (s : RLState) (u : Nat) (a : String) (t : Nat)
    (cfg : RateLimitConfig) (hc : s.configs a = some cfg) :
    ∃ e, (recordAttempt s u a t).attempts (u, a) = some e ∧ e.lastAttempt = t := by
  unfold recordAttempt
  rw [hc]
  dsimp only
  rcases s.attempts (u, a) with _ | ex
  · exact ⟨{ userId := u, action := a, count := 1, windowStart := t
             lastAttempt := t }, by simp, rfl⟩
  · dsimp only
    split
    · exact ⟨{ userId := u, action := a, count := 1, windowStart := t
               lastAttempt := t }, by simp, rfl⟩
    · exact ⟨{ ex with count := ex.count + 1, lastAttempt := t }, by simp, rfl⟩

theorem check_no_entry (s : RLState) (u : Nat) (a : String) (t : Nat)
    (cfg : RateLimitConfig) (hc : s.configs a = some cfg)
    (he : s.attempts (u, a) = none) :
    (canPerformAction s u a t).1 =
      { allowed := true, remainingAttempts := some (cfg.maxAttempts - 1)
        resetTime := some (t + cfg.windowMs) } := by
  unfold canPerformAction
  rw [hc]
  dsimp only
  rw [he]

theorem check_within (s : RLState) (u : Nat) (a : String) (t : Nat)
    (cfg : RateLimitConfig) (limit : RateLimit) (hc : s.configs a = some cfg)
    (he : s.attempts (u, a) = some limit) (hcd : cfg.cooldownMs = none)
    (hw : ¬ t - limit.windowStart > cfg.windowMs)
    (hcount : ¬ limit.count ≥ cfg.maxAttempts) :
    (canPerformAction s u a t).1 =
      { allowed := true
        remainingAttempts := some (cfg.maxAttempts - limit.count - 1)
        resetTime := some (limit.windowStart + cfg.windowMs) } := by
  unfold canPerformAction
  rw [hc]
  dsimp only
  rw [he]
  simp [hcd, hw, hcount]

theorem check_limited (s : RLState) (u : Nat) (a : String) (t : Nat)
    (cfg : RateLimitConfig) (limit : RateLimit) (hc : s.configs a = some cfg)
    (he : s.attempts (u, a) = some limit) (hcd : cfg.cooldownMs = none)
    (hw : ¬ t - limit.windowStart > cfg.windowMs)
    (hcount : limit.count ≥ cfg.maxAttempts) :
    (canPerformAction s u a t).1 =
      { allowed := false
        resetTime := some (limit.windowStart + cfg.windowMs)
        message := some ("Rate limit exceeded. Try again in "
          ++ toString (ceilSeconds (limit.windowStart + cfg.windowMs - t))
          ++ " seconds.") } := by
  unfold canPerformAction
  rw [hc]
  dsimp only
  rw [he]
  simp [hcd, hw, hcount]

theorem check_window_expired (s : RLState) (u : Nat) (a : String) (t : Nat)
    (cfg : RateLimitConfig) (limit : RateLimit) (hc : s.configs a = some cfg)
    (he : s.attempts (u, a) = some limit) (hcd : cfg.cooldownMs = none)
    (hw : t - limit.windowStart > cfg.windowMs) :
    (canPerformAction s u a t).1 =
      { allowed := true, remainingAttempts := some (cfg.maxAttempts - 1)
        resetTime := some (t + cfg.windowMs) } := by
  unfold canPerformAction
  rw [hc]
  dsimp only
  rw [he]
  simp [hcd, hw]

theorem check_cooldown (s : RLState) (u : Nat) (a : String) (t : Nat)
    (cfg : RateLimitConfig) (limit : RateLimit) (c : Nat)
    (hc : s.configs a = some cfg) (he : s.attempts (u, a) = some limit)
    (hcd : cfg.cooldownMs = some c) (hc0 : c ≠ 0)
    (ht : limit.lastAttempt + c > t) :
    (canPerformAction s u a t).1 =
      { allowed := false, cooldownUntil := some (limit.lastAttempt + c)
        message := some ("Action blocked. Cooldown active for "
          ++ toString (ceilSeconds (limit.lastAttempt + c - t))
          ++ " more seconds.") } := by
  unfold canPerformAction
  rw [hc]
  dsimp only
  rw [he]
  simp [hcd, hc0, ht]

/-! ## Claim theorems -/

/-- Claim C1, counterexample: a second `createWalletForUser` call for the
same user does not fail with AlreadyExists — it succeeds and silently
replaces the stored record (the stored address changes from the first
wallet's to the second's). -/
theorem createWalletForUser_second_call_overwrites_cex :
    ∃ r1 s1, createWalletForUser walletState0 1 none wEx1 0 = Except.ok (r1, s1)
      ∧ (s1.wallets 1).map StoredWallet.address = some "A1"
      ∧ ∃ r2 s2, createWalletForUser s1 1 none wEx2 3 = Except.ok (r2, s2)
        ∧ (s2.wallets 1).map StoredWallet.address = some "A2"
        ∧ (s2.wallets 1).map StoredWallet.address ≠ some "A1" := by
  refine ⟨_, _, createWalletForUser_ok _ _ _ _ _ _ rfl,
    by simp [createdState, storedOf, wEx1],
    _, _, createWalletForUser_ok _ _ _ _ _ _ rfl, ?_, ?_⟩
  · simp [createdState, storedOf, wEx2]
  · simp [createdState, storedOf, wEx2]

/-- Claim C1, amended: `createWalletForUser` performs no existence check.
Even when a `StoredWallet` is already stored for the user, a second call
with no passphrase succeeds and overwrites the record with one built
entirely from the freshly generated wallet, independent of the old
record. The one-wallet-per-user guard lives in the callers (`hasWallet`
checks in the bot layer), not in the service. -/
theorem createWalletForUser_no_existence_check (s : WState) (userId : Nat)
    (rOld : StoredWallet) (w : GeneratedWallet) (now : Nat)
    (_h : s.wallets userId = some rOld) :
    createWalletForUser s userId none w now =
      Except.ok
        ({ w with encryptedPrivateKey := some (pkBlobOf s (fallbackKey userId) w) },
         createdState s userId none w now (fallbackKey userId))
    ∧ (createdState s userId none w now (fallbackKey userId)).wallets userId
        = some (storedOf s userId none w now (fallbackKey userId)) :=
  ⟨createWalletForUser_ok s userId none w now _ rfl, by simp [createdState]⟩

/-- Witness for the amended claim C1 at a concrete state that already
holds a wallet for user 1. -/
theorem createWalletForUser_no_existence_check_witness :
    s1ex.wallets 1 = some (storedOf walletState0 1 none wEx1 0 (fallbackKey 1))
    ∧ (createWalletForUser s1ex 1 none wEx2 3 =
        Except.ok ({ wEx2 with
            encryptedPrivateKey := some (pkBlobOf s1ex (fallbackKey 1) wEx2) },
          createdState s1ex 1 none wEx2 3 (fallbackKey 1))
      ∧ (createdState s1ex 1 none wEx2 3 (fallbackKey 1)).wallets 1
          = some (storedOf s1ex 1 none wEx2 3 (fallbackKey 1))) :=
  ⟨by simp [s1ex, createdState],
   createWalletForUser_no_existence_check s1ex 1
     (storedOf walletState0 1 none wEx1 0 (fallbackKey 1)) wEx2 3
     (by simp [s1ex, createdState])⟩

/-- Claim C2, counterexample: for a wallet created with a passphrase
(hasPassphrase true, PassphraseRecord present), `getPrivateKey` with no
passphrase argument fails with DecryptionFailure (the fallback key fails
the authentication-tag check), not with InvalidPassphrase; and the public
method returns null. -/
theorem getPrivateKey_no_arg_error_kind_cex :
    ∃ r s2, createWalletForUser sPex 1 (some "hunter2") wEx2 0 = Except.ok (r, s2)
      ∧ (s2.wallets 1).map StoredWallet.hasPassphrase = some true
      ∧ getPrivateKeyE s2 1 none = Except.error WalletError.decryptionFailure
      ∧ WalletError.decryptionFailure ≠ WalletError.invalidPassphrase
      ∧ getPrivateKey s2 1 none = none := by
  have hrec : sPex.passphrases 1 =
      some { userId := 1
             hashedPassphrase := Bytes.scrypt "hunter2" (Bytes.random 0) 64
             salt := Bytes.random 0
             createdAt := 5 } := rfl
  have hd := deriveKey_record sPex 1 "hunter2" _ hrec rfl (by decide)
  refine ⟨_, _, createWalletForUser_ok sPex 1 (some "hunter2") wEx2 0 _ hd,
    ?_, ?_, by decide, ?_⟩
  · simp [createdState, storedOf, truthy]
  · simp [getPrivateKeyE, createdState, storedOf, decryptPrivateKey,
      deriveKey_arg_none, pkBlobOf, fallbackKey]
  · simp [getPrivateKey, getPrivateKeyE, createdState, storedOf, decryptPrivateKey,
      deriveKey_arg_none, pkBlobOf, fallbackKey, Except.toOption]

/-- Claim C2, amended: for a user whose PassphraseRecord (created by
`setUserPassphrase`, so its salt is a fresh random one) is unchanged since
wallet creation with the correct non-empty passphrase `p`: a wrong
non-empty passphrase fails with InvalidPassphrase, no passphrase argument
fails with DecryptionFailure (not InvalidPassphrase), and the correct
passphrase returns exactly the private key generated at creation. The
public `getPrivateKey` collapses both failures to null. -/
theorem getPrivateKey_passphrase_gating (s : WState) (userId k t now : Nat)
    (p q : String) (w : GeneratedWallet)
    (hrec : s.passphrases userId =
      some { userId := userId
             hashedPassphrase := Bytes.scrypt p (Bytes.random k) 64
             salt := Bytes.random k
             createdAt := t })
    (hp : p ≠ "") (hq : q ≠ p) (hq0 : q ≠ "") :
    ∃ r s2, createWalletForUser s userId (some p) w now = Except.ok (r, s2)
      ∧ getPrivateKeyE s2 userId none = Except.error WalletError.decryptionFailure
      ∧ getPrivateKeyE s2 userId (some q) = Except.error WalletError.invalidPassphrase
      ∧ getPrivateKeyE s2 userId (some p) = Except.ok w.privateKey
      ∧ getPrivateKey s2 userId none = none
      ∧ getPrivateKey s2 userId (some q) = none
      ∧ getPrivateKey s2 userId (some p) = some w.privateKey := by
  have hd := deriveKey_record s userId p _ hrec rfl hp
  have hq2 := deriveKey_record_wrong s userId p q _ hrec rfl hq hq0
  have hNone : getPrivateKeyE (createdState s userId (some p) w now
      (Bytes.scrypt p (Bytes.random k) liveKdfParams.keylen)) userId none
      = Except.error WalletError.decryptionFailure := by
    rw [getPrivateKeyE_created, deriveKey_arg_none]
    simp [fallbackKey]
  have hWrong : getPrivateKeyE (createdState s userId (some p) w now
      (Bytes.scrypt p (Bytes.random k) liveKdfParams.keylen)) userId (some q)
      = Except.error WalletError.invalidPassphrase := by
    rw [getPrivateKeyE_created, hq2]
  have hRight : getPrivateKeyE (createdState s userId (some p) w now
      (Bytes.scrypt p (Bytes.random k) liveKdfParams.keylen)) userId (some p)
      = Except.ok w.privateKey := by
    rw [getPrivateKeyE_created, hd]
    simp
  refine ⟨_, _, createWalletForUser_ok s userId (some p) w now _ hd,
    hNone, hWrong, hRight, ?_, ?_, ?_⟩
  · simp [getPrivateKey, hNone, Except.toOption]
  · simp [getPrivateKey, hWrong, Except.toOption]
  · simp [getPrivateKey, hRight, Except.toOption]

/-- Witness for the amended claim C2 at concrete inputs. -/
theorem getPrivateKey_passphrase_gating_witness :
    ∃ r s2, createWalletForUser sPex 1 (some "hunter2") wEx1 0 = Except.ok (r, s2)
      ∧ getPrivateKeyE s2 1 none = Except.error WalletError.decryptionFailure
      ∧ getPrivateKeyE s2 1 (some "wrong") = Except.error WalletError.invalidPassphrase
      ∧ getPrivateKeyE s2 1 (some "hunter2") = Except.ok wEx1.privateKey
      ∧ getPrivateKey s2 1 none = none
      ∧ getPrivateKey s2 1 (some "wrong") = none
      ∧ getPrivateKey s2 1 (some "hunter2") = some wEx1.privateKey :=
  getPrivateKey_passphrase_gating sPex 1 0 5 0 "hunter2" "wrong" wEx1
    rfl (by decide) (by decide) (by decide)

/-- Claim C3: the mnemonic blob is sealed with its own fresh random salt
as associated data, but only the private-key blob's salt is stored and
presented at decryption, so `getMnemonic` always fails the
authentication-tag check and returns null — the encrypted mnemonic is
never recoverable, contradicting the claim that it round-trips under the
stored salt. -/
theorem getMnemonic_never_recoverable (s : WState) (userId : Nat)
    (w : GeneratedWallet) (now : Nat) (r : GeneratedWallet) (s2 : WState)
    (h : createWalletForUser s userId none w now = Except.ok (r, s2)) :
    getMnemonicE s2 userId none = Except.error WalletError.decryptionFailure
    ∧ getMnemonic s2 userId none = none := by
  rw [createWalletForUser_ok s userId none w now (fallbackKey userId) rfl] at h
  simp only [Except.ok.injEq, Prod.mk.injEq] at h
  obtain ⟨-, hs⟩ := h
  subst hs
  have h1 : getMnemonicE (createdState s userId none w now (fallbackKey userId))
      userId none = Except.error WalletError.decryptionFailure := by
    simp [getMnemonicE, createdState, storedOf, decryptPrivateKey,
      deriveKey_arg_none]
  exact ⟨h1, by simp [getMnemonic, h1, Except.toOption]⟩

/-- Witness for C3 at a concrete creation. -/
theorem getMnemonic_never_recoverable_witness :
    getMnemonicE (createdState walletState0 3 none wEx1 0 (fallbackKey 3)) 3 none
      = Except.error WalletError.decryptionFailure
    ∧ getMnemonic (createdState walletState0 3 none wEx1 0 (fallbackKey 3))
        3 none = none :=
  getMnemonic_never_recoverable walletState0 3 wEx1 0 _ _
    (createWalletForUser_ok walletState0 3 none wEx1 0 (fallbackKey 3) rfl)

/-- Claim C4, counterexample: calling `createWalletForUser` with a
passphrase argument for a user with no PassphraseRecord stores
hasPassphrase = true even though no PassphraseRecord exists at encryption
time. -/
theorem hasPassphrase_flag_cex :
    ∃ r s2, createWalletForUser walletState0 1 (some "p") wEx1 0
        = Except.ok (r, s2)
      ∧ (s2.wallets 1).map StoredWallet.hasPassphrase = some true
      ∧ s2.passphrases 1 = none := by
  refine ⟨_, _, createWalletForUser_ok walletState0 1 (some "p") wEx1 0
    (fallbackKey 1) (deriveKey_no_record _ _ _ rfl), ?_, rfl⟩
  simp [createdState, storedOf, truthy]

/-- Claim C4, amended: the stored hasPassphrase flag equals the JavaScript
truthiness of the passphrase argument passed to `createWalletForUser`
(false for absent or empty, true otherwise), regardless of whether a
PassphraseRecord exists. -/
theorem hasPassphrase_flag_from_argument (s : WState) (userId : Nat)
    (passphrase : Option String) (w : GeneratedWallet) (now : Nat)
    (r : GeneratedWallet) (s2 : WState)
    (h : createWalletForUser s userId passphrase w now = Except.ok (r, s2)) :
    (s2.wallets userId).map StoredWallet.hasPassphrase
      = some (truthy passphrase) := by
  rcases hd : deriveKey s userId passphrase with e | key
  · unfold createWalletForUser encryptPrivateKey at h
    rw [hd] at h
    simp at h
  · rw [createWalletForUser_ok s userId passphrase w now key hd] at h
    simp only [Except.ok.injEq, Prod.mk.injEq] at h
    obtain ⟨-, hs⟩ := h
    subst hs
    simp [createdState, storedOf]

/-- Witness for the amended claim C4 at a concrete call. -/
theorem hasPassphrase_flag_from_argument_witness :
    (∃ r s2, createWalletForUser walletState0 1 (some "p") wEx1 0
        = Except.ok (r, s2)
      ∧ (s2.wallets 1).map StoredWallet.hasPassphrase = some true) :=
  ⟨_, _, createWalletForUser_ok walletState0 1 (some "p") wEx1 0 (fallbackKey 1)
      (deriveKey_no_record _ _ _ rfl),
   hasPassphrase_flag_from_argument walletState0 1 (some "p") wEx1 0 _ _
     (createWalletForUser_ok walletState0 1 (some "p") wEx1 0 (fallbackKey 1)
       (deriveKey_no_record _ _ _ rfl))⟩

/-- Claim C5: when `createWalletForUser` is called with a passphrase
argument but no PassphraseRecord exists, the blobs are sealed under the
deterministic user-id fallback key, and a subsequent `getPrivateKey` with
no passphrase argument returns the plaintext private key. -/
theorem createWallet_fallback_when_no_record (s : WState) (userId : Nat)
    (p : String) (w : GeneratedWallet) (now : Nat)
    (h : s.passphrases userId = none) :
    ∃ r s2, createWalletForUser s userId (some p) w now = Except.ok (r, s2)
      ∧ (s2.wallets userId).map (fun sw => sw.encryptedPrivateKey.key)
          = some (fallbackKey userId)
      ∧ getPrivateKeyE s2 userId none = Except.ok w.privateKey
      ∧ getPrivateKey s2 userId none = some w.privateKey := by
  refine ⟨_, _, createWalletForUser_ok s userId (some p) w now (fallbackKey userId)
    (deriveKey_no_record s userId p h), ?_, ?_, ?_⟩
  · simp [createdState, storedOf, pkBlobOf]
  · simp [getPrivateKeyE, createdState, storedOf, decryptPrivateKey,
      deriveKey_arg_none, pkBlobOf]
  · simp [getPrivateKey, getPrivateKeyE, createdState, storedOf, decryptPrivateKey,
      deriveKey_arg_none, pkBlobOf, Except.toOption]

/-- Witness for C5 at a concrete call. -/
theorem createWallet_fallback_when_no_record_witness :
    ∃ r s2, createWalletForUser walletState0 7 (some "secret") wEx1 0
        = Except.ok (r, s2)
      ∧ (s2.wallets 7).map (fun sw => sw.encryptedPrivateKey.key)
          = some (fallbackKey 7)
      ∧ getPrivateKeyE s2 7 none = Except.ok wEx1.privateKey
      ∧ getPrivateKey s2 7 none = some wEx1.privateKey :=
  createWallet_fallback_when_no_record walletState0 7 "secret" wEx1 0 rfl

/-- Claim C6: creating a wallet with no passphrase stores
hasPassphrase = false, and `getPrivateKey` with no passphrase argument
returns exactly the private key string returned at creation (round trip
under the deterministic user-id fallback key). -/
theorem createWallet_noPassphrase_roundTrip (s : WState) (userId : Nat)
    (w : GeneratedWallet) (now : Nat) :
    ∃ r s2, createWalletForUser s userId none w now = Except.ok (r, s2)
      ∧ r.privateKey = w.privateKey
      ∧ (s2.wallets userId).map StoredWallet.hasPassphrase = some false
      ∧ getPrivateKey s2 userId none = some r.privateKey := by
  refine ⟨_, _, createWalletForUser_ok s userId none w now (fallbackKey userId) rfl,
    rfl, ?_, ?_⟩
  · simp [createdState, storedOf, truthy]
  · simp [getPrivateKey, getPrivateKeyE, createdState, storedOf, decryptPrivateKey,
      deriveKey_arg_none, pkBlobOf, Except.toOption]

/-- Claim C7: for an action configured with windowMs 60000, maxAttempts 3
and no cooldown, starting from no entry: three checks within 60000 ms of
the first recorded attempt (each followed by a record) are Allowed, the
fourth check in the window is Denied with reason RateLimited (resetTime
present, no cooldownUntil), and a check more than 60000 ms after the
first recorded attempt is Allowed again. -/
theorem rateLimiter_window_trace (s : RLState) (u : Nat) (a : String)
    (t1 t2 t3 t4 t5 : Nat)
    (hc : s.configs a =
      some { windowMs := 60000, maxAttempts := 3, cooldownMs := none })
    (he : s.attempts (u, a) = none)
    (h21 : t2 - t1 ≤ 60000) (h31 : t3 - t1 ≤ 60000) (h41 : t4 - t1 ≤ 60000)
    (h51 : t5 - t1 > 60000) :
    (canPerformAction s u a t1).1.allowed = true
    ∧ (canPerformAction (recordAttempt s u a t1) u a t2).1.allowed = true
    ∧ (canPerformAction (recordAttempt (recordAttempt s u a t1) u a t2)
        u a t3).1.allowed = true
    ∧ (canPerformAction (recordAttempt (recordAttempt (recordAttempt s u a t1)
        u a t2) u a t3) u a t4).1
        = { allowed := false, resetTime := some (t1 + 60000)
            message := some ("Rate limit exceeded. Try again in "
              ++ toString (ceilSeconds (t1 + 60000 - t4)) ++ " seconds.") }
    ∧ (canPerformAction (recordAttempt (recordAttempt (recordAttempt s u a t1)
        u a t2) u a t3) u a t5).1.allowed = true := by
  have hc1 : (recordAttempt s u a t1).configs a =
      some { windowMs := 60000, maxAttempts := 3, cooldownMs := none } := by
    rw [recordAttempt_configs]; exact hc
  have hc2 : (recordAttempt (recordAttempt s u a t1) u a t2).configs a =
      some { windowMs := 60000, maxAttempts := 3, cooldownMs := none } := by
    rw [recordAttempt_configs]; exact hc1
  have hc3 : (recordAttempt (recordAttempt (recordAttempt s u a t1) u a t2)
      u a t3).configs a =
      some { windowMs := 60000, maxAttempts := 3, cooldownMs := none } := by
    rw [recordAttempt_configs]; exact hc2
  have ha1 := recordAttempt_fresh s u a t1 _ hc he
  have ha2 : (recordAttempt (recordAttempt s u a t1) u a t2).attempts (u, a) =
      some { userId := u, action := a, count := 2, windowStart := t1
             lastAttempt := t2 } :=
    recordAttempt_incr _ u a t2 _ _ hc1 ha1 (show ¬ t2 - t1 > 60000 by omega)
  have ha3 : (recordAttempt (recordAttempt (recordAttempt s u a t1) u a t2)
      u a t3).attempts (u, a) =
      some { userId := u, action := a, count := 3, windowStart := t1
             lastAttempt := t3 } :=
    recordAttempt_incr _ u a t3 _ _ hc2 ha2 (show ¬ t3 - t1 > 60000 by omega)
  refine ⟨?_, ?_, ?_, ?_, ?_⟩
  · rw [check_no_entry s u a t1 _ hc he]
  · rw [check_within _ u a t2 _ _ hc1 ha1 rfl
      (show ¬ t2 - t1 > 60000 by omega) (show ¬ 1 ≥ 3 by omega)]
  · rw [check_within _ u a t3 _ _ hc2 ha2 rfl
      (show ¬ t3 - t1 > 60000 by omega) (show ¬ 2 ≥ 3 by omega)]
  · rw [check_limited _ u a t4 _ _ hc3 ha3 rfl
      (show ¬ t4 - t1 > 60000 by omega) (show 3 ≥ 3 by omega)]
  · rw [check_window_expired _ u a t5 _ _ hc3 ha3 rfl
      (show t5 - t1 > 60000 by omega)]

/-- Witness for C7 on a concrete trace at times 0, 1, 2, 3, 60001. -/
theorem rateLimiter_window_trace_witness :
    (canPerformAction rlTraceState 9 "transfer" 0).1.allowed = true
    ∧ (canPerformAction (recordAttempt rlTraceState 9 "transfer" 0)
        9 "transfer" 1).1.allowed = true
    ∧ (canPerformAction (recordAttempt (recordAttempt rlTraceState 9 "transfer" 0)
        9 "transfer" 1) 9 "transfer" 2).1.allowed = true
    ∧ (canPerformAction (recordAttempt (recordAttempt (recordAttempt rlTraceState
        9 "transfer" 0) 9 "transfer" 1) 9 "transfer" 2) 9 "transfer" 3).1
        = { allowed := false, resetTime := some (0 + 60000)
            message := some ("Rate limit exceeded. Try again in "
              ++ toString (ceilSeconds (0 + 60000 - 3)) ++ " seconds.") }
    ∧ (canPerformAction (recordAttempt (recordAttempt (recordAttempt rlTraceState
        9 "transfer" 0) 9 "transfer" 1) 9 "transfer" 2) 9 "transfer" 60001).1.allowed
        = true :=
  rateLimiter_window_trace rlTraceState 9 "transfer" 0 1 2 3 60001
    (by decide) rfl (by decide) (by decide) (by decide) (by decide)

/-- Claim C8: for any action whose configuration sets cooldownMs = 30000,
immediately after any `recordAttempt`, every check made before 30000 ms
have passed the recorded last attempt is Denied with reason Cooldown
(cooldownUntil = lastAttempt + 30000), regardless of the remaining window
count. -/
theorem cooldown_blocks_checks (s : RLState) (u : Nat) (a : String)
    (cfg : RateLimitConfig) (now t : Nat)
    (hc : s.configs a = some cfg) (hcd : cfg.cooldownMs = some 30000)
    (ht : t < now + 30000) :
    (canPerformAction (recordAttempt s u a now) u a t).1.allowed = false
    ∧ (canPerformAction (recordAttempt s u a now) u a t).1.cooldownUntil
        = some (now + 30000) := by
  have hc1 : (recordAttempt s u a now).configs a = some cfg := by
    rw [recordAttempt_configs]; exact hc
  obtain ⟨e, he, hl⟩ := recordAttempt_lastAttempt s u a now cfg hc
  have hch := check_cooldown (recordAttempt s u a now) u a t cfg e 30000
    hc1 he hcd (by omega) (by rw [hl]; omega)
  rw [hch, hl]
  exact ⟨rfl, rfl⟩

/-- Witness for C8 on the default `supply` configuration. -/
theorem cooldown_blocks_checks_witness :
    (canPerformAction (recordAttempt rlState0 7 "supply" 1000) 7 "supply"
        1500).1.allowed = false
    ∧ (canPerformAction (recordAttempt rlState0 7 "supply" 1000) 7 "supply"
        1500).1.cooldownUntil = some (1000 + 30000) :=
  cooldown_blocks_checks rlState0 7 "supply"
    { windowMs := 60000, maxAttempts := 3, cooldownMs := some 30000 }
    1000 1500 (by decide) rfl (by decide)

/-- Claim C9: `canPerformAction` is a pure read — the limiter state it
returns is exactly the state it was given, in every branch; no entry is
created, deleted or mutated. -/
theorem canPerformAction_pure_read (s : RLState) (userId : Nat)
    (action : String) (now : Nat) :
    (canPerformAction s userId action now).2 = s := by
  unfold canPerformAction
  rcases s.configs action with _ | config
  · rfl
  · rcases s.attempts (userId, action) with _ | limit
    · rfl
    · dsimp only
      split
      · rfl
      · split
        · rfl
        · split <;> rfl

/-- Claim C10: `verifyPassphrase` fails closed — it returns false for
every candidate when no PassphraseRecord exists — and after
`setUserPassphrase(userId, p)` it re-derives the hash with the stored
salt and returns true for the same passphrase p. -/
theorem verifyPassphrase_fails_closed_and_roundTrip :
    (∀ (s : WState) (userId : Nat) (passphrase : String),
        s.passphrases userId = none → verifyPassphrase s userId passphrase = false)
    ∧ (∀ (s : WState) (userId : Nat) (passphrase : String) (now : Nat),
        verifyPassphrase (setUserPassphrase s userId passphrase now) userId
          passphrase = true) := by
  constructor
  · intro s u p h
    simp [verifyPassphrase, h]
  · intro s u p now
    simp [verifyPassphrase, setUserPassphrase]

/-- Witness for C10 at concrete inputs. -/
theorem verifyPassphrase_fails_closed_and_roundTrip_witness :
    verifyPassphrase walletState0 1 "x" = false
    ∧ verifyPassphrase (setUserPassphrase walletState0 1 "p" 0) 1 "p" = true :=
  ⟨verifyPassphrase_fails_closed_and_roundTrip.1 walletState0 1 "x" rfl,
   verifyPassphrase_fails_closed_and_roundTrip.2 walletState0 1 "p" 0⟩

end ChillFill
